import Mathlib

/-!
Shallow embedding of the tool-augmented reasoning core of the repository:
`brain.py` (the `python_repl` tool, the action parsing and the orchestration
loop in `process_query`), `core/utils/secure_python.py` (the
`SecurePythonExecutor` sandbox), and `brain_secure.py`
(`SecureBrain.execute_python`).

Python strings are modelled by Lean `String`, with the handful of string
methods used by the source (`split`, `strip`, `replace`, the `in` operator)
re-implemented below with the exact CPython semantics on the inputs that
occur (non-empty separators, ASCII whitespace).  Effects the source delegates
to the operating system or to the CPython runtime (the behaviour of `exec`,
the fate of the worker process) are supplied as explicit oracle parameters,
so every definition stays a computable function of its inputs.
-/

/- ------------------------------------------------------------------ -/
/- Python string primitives                                            -/
/- ------------------------------------------------------------------ -/

/-- Does the character list `s` start with the pattern `p`? -/
def charStartsWith : List Char → List Char → Bool
  | [], _ => true
  | _ :: _, [] => false
  | p :: ps, c :: cs => p == c && charStartsWith ps cs

/-- Fuel-driven worker for `pySplit`.  `acc` holds the characters of the
current field in reverse order.  With fuel `≥ s.length + 1` and a non-empty
separator this computes CPython's `s.split(sep)`. -/
def splitFields (sep : List Char) : Nat → List Char → List Char → List (List Char)
  | 0, _, acc => [acc.reverse]
  | _ + 1, [], acc => [acc.reverse]
  | fuel + 1, c :: rest, acc =>
    if charStartsWith sep (c :: rest) then
      acc.reverse :: splitFields sep fuel ((c :: rest).drop sep.length) []
    else
      splitFields sep fuel rest (c :: acc)

/-- CPython `s.split(sep)` for a non-empty separator `sep`. -/
def pySplit (s sep : String) : List String :=
  (splitFields sep.toList (s.toList.length + 1) s.toList []).map String.mk

/-- Is `sub` a substring of `s`?  CPython's `sub in s` for non-empty `sub`. -/
def subAt (sub : List Char) : List Char → Bool
  | [] => charStartsWith sub []
  | c :: rest => charStartsWith sub (c :: rest) || subAt sub rest

/-- CPython `sub in s` (substring membership) for non-empty `sub`. -/
def pyIn (sub s : String) : Bool := subAt sub.toList s.toList

/-- The ASCII whitespace characters stripped by CPython `str.strip()`.
(The source only ever strips ASCII text, so the unicode cases of
`str.strip` never arise.) -/
def isPySpace (c : Char) : Bool :=
  c == ' ' || c == '\t' || c == '\n' || c == '\r' || c == '\x0b' || c == '\x0c'

/-- CPython `s.strip()` restricted to ASCII whitespace. -/
def pyStrip (s : String) : String :=
  String.mk (((s.toList.dropWhile isPySpace).reverse.dropWhile isPySpace).reverse)

/-- Fuel-driven worker for `pyReplace`.  Replaces every non-overlapping
occurrence of `old` (non-empty) by `new`, scanning left to right. -/
def replaceFields (old new : List Char) : Nat → List Char → List Char
  | 0, s => s
  | _ + 1, [] => []
  | fuel + 1, c :: rest =>
    if charStartsWith old (c :: rest) then
      new ++ replaceFields old new fuel ((c :: rest).drop old.length)
    else
      c :: replaceFields old new fuel rest

/-- CPython `s.replace(old, new)` for a non-empty `old`. -/
def pyReplace (s old new : String) : String :=
  String.mk (replaceFields old.toList new.toList (s.toList.length + 1) s.toList)

/- ------------------------------------------------------------------ -/
/- brain.py : python_repl (lines 98-144)                               -/
/- ------------------------------------------------------------------ -/

/-- The keys of the `safe_builtins` dict that `python_repl` in `brain.py`
hands to `exec` as the entire `__builtins__` namespace (lines 103-131),
in source order. -/
def pythonReplSafeBuiltins : List String :=
  ["print", "len", "range", "enumerate", "zip", "map", "filter", "sorted",
   "sum", "min", "max", "abs", "round", "int", "float", "str", "list",
   "dict", "set", "tuple", "bool", "type", "isinstance", "hasattr",
   "getattr", "open", "__import__"]

/-- Oracle for the behaviour of the in-process `exec(code, ...)` call inside
`python_repl`: either it completes and the redirected stdout/stderr buffer
holds `stdoutText`, or it raises and `traceback.format_exc()` renders as
`tracebackText`. -/
inductive ReplExec where
  | completes (stdoutText : String)
  | raises (tracebackText : String)
  deriving DecidableEq, Repr

/-- `python_repl(code, timeout=30)` from `brain.py` lines 98-144: runs the
code in-process against the `pythonReplSafeBuiltins` namespace, returns the
captured output (or `"Done (no output)"` when the stripped output is empty),
and on an exception returns the formatted traceback.  The `timeout`
parameter is accepted but, exactly as in the source, never read. -/
def python_repl (code : String) (timeout : Nat) (beh : ReplExec) : String :=
  match code, timeout, beh with
  | _, _, ReplExec.completes out =>
      if pyStrip out = "" then "Done (no output)" else out
  | _, _, ReplExec.raises tb => tb

/- ------------------------------------------------------------------ -/
/- brain.py : action parsing (process_query lines 343-346, 368-372)    -/
/- ------------------------------------------------------------------ -/

/-- Result of scanning a model response for the `Action:` / `Input:`
markers. -/
inductive ParseResult where
  | terminal (text : String)
  | action (name input : String)
  deriving DecidableEq, Repr

/-- The guard `"Action:" in response and "Input:" in response` of
`brain.py` line 343. -/
def hasMarkers (r : String) : Bool := pyIn "Action:" r && pyIn "Input:" r

/-- The action parsing of `process_query` (`brain.py` lines 343-346,
368-372): if both markers are present,
`response.split("Action:")[1].split("Input:")[0].strip()` is the tool name
and `response.split("Input:")[1].strip()` is the tool input; otherwise the
whole response is the terminal answer. -/
def parseResponse (r : String) : ParseResult :=
  if hasMarkers r then
    ParseResult.action
      (pyStrip ((pySplit ((pySplit r "Action:").getD 1 "") "Input:").getD 0 ""))
      (pyStrip ((pySplit r "Input:").getD 1 ""))
  else
    ParseResult.terminal r

/-- The code-fence cleanup applied to `python_repl` input
(`brain.py` lines 354-356):
`input_part.replace("```python", "").replace("```", "").strip()`. -/
def cleanCode (s : String) : String :=
  pyStrip (pyReplace (pyReplace s "```python" "") "```" "")

/- ------------------------------------------------------------------ -/
/- brain.py : the orchestration loop of process_query (lines 303-380)  -/
/- ------------------------------------------------------------------ -/

/-- One chat message, as the dicts `{"role": ..., "content": ...}` that
`process_query` appends to its `messages` list. -/
structure Msg where
  role : String
  content : String
  deriving DecidableEq, Repr

/-- The fixed policy-denial observation of `brain.py` line 360. -/
def toolDisabledMsg : String := "⚠️ هذه الأداة غير مفعّلة."

/-- The fallback answer of `brain.py` line 375, used only when `messages`
is empty (unreachable from `process_query`, which always seeds a system
message). -/
def maxIterFallback : String := "⚠️ تم الوصول للحد الأقصى من التكرارات."

/-- The environment of one `process_query` call: the two skill flags read
from `get_enabled_skills()` and oracles for the two tools' runtime
behaviour (`web_search`'s returned text, and the `exec` behaviour that
`python_repl` will see for a given code string). -/
structure Cfg where
  webOn : Bool
  pyOn : Bool
  webF : String → String
  replBeh : String → ReplExec

/-- The tool dispatch of `brain.py` lines 351-360: `web_search` when named
and enabled, `python_repl` (on the fence-cleaned code, with its default
`timeout=30`) when named and enabled, otherwise the fixed policy-denial
string.  The second component records which tool invocations actually
executed. -/
def dispatchTool (cfg : Cfg) (name input : String) : String × List (String × String) :=
  if name = "web_search" ∧ cfg.webOn = true then
    (cfg.webF input, [("web_search", input)])
  else if name = "python_repl" ∧ cfg.pyOn = true then
    (python_repl (cleanCode input) 30 (cfg.replBeh (cleanCode input)),
     [("python_repl", cleanCode input)])
  else
    (toolDisabledMsg, [])

/-- Observable outcome of one `process_query` run: the returned answer, how
many model calls were made, the message list passed to the model at each
call, the tool invocations that executed, and the final message list. -/
structure LoopOut where
  answer : String
  calls : Nat
  queried : List (List Msg)
  tools : List (String × String)
  msgsFinal : List Msg
  deriving Repr

/-- `messages[-1]["content"] if messages else ...` of `brain.py` lines
374-376. -/
def lastContentOr (msgs : List Msg) : String :=
  match msgs.getLast? with
  | some m => m.content
  | none => maxIterFallback

/-- The `for iteration in range(10)` loop of `process_query` (`brain.py`
lines 318-380), with the upstream model abstracted as the oracle
`resp : Nat → Except String String` (`Except.error e` models the API call
raising, in which case the loop returns the connection-error answer;
`Except.ok r` is the assistant's response text).  Each round appends the
assistant response, parses it, and either returns it (no markers), or
dispatches the tool, appends `"Observation: " ++ result` as a user-role
message and continues; when the fuel (10 from `process_query`) is
exhausted the content of the last message is returned. -/
def runLoop (cfg : Cfg) (resp : Nat → Except String String) :
    Nat → Nat → List Msg → LoopOut
  | 0, _, msgs =>
      { answer := lastContentOr msgs, calls := 0, queried := [],
        tools := [], msgsFinal := msgs }
  | fuel + 1, i, msgs =>
      match resp i with
      | Except.error e =>
          { answer := "❌ خطأ في الاتصال: " ++ e, calls := 1, queried := [msgs],
            tools := [], msgsFinal := msgs }
      | Except.ok r =>
          match parseResponse r with
          | ParseResult.terminal t =>
              { answer := t, calls := 1, queried := [msgs], tools := [],
                msgsFinal := msgs ++ [⟨"assistant", r⟩] }
          | ParseResult.action name input =>
              let d := dispatchTool cfg name input
              let msgs2 := (msgs ++ [⟨"assistant", r⟩]) ++
                [⟨"user", "Observation: " ++ d.1⟩]
              let rest := runLoop cfg resp fuel (i + 1) msgs2
              { answer := rest.answer, calls := rest.calls + 1,
                queried := msgs :: rest.queried, tools := d.2 ++ rest.tools,
                msgsFinal := rest.msgsFinal }

/-- `process_query` (`brain.py`): seeds `messages` with the system prompt,
the prior thread history and the new user message, then runs the loop with
its fixed bound of 10 iterations. -/
def processQuery (cfg : Cfg) (resp : Nat → Except String String)
    (systemPrompt : String) (history : List Msg) (userText : String) : LoopOut :=
  runLoop cfg resp 10 0 (⟨"system", systemPrompt⟩ :: history ++ [⟨"user", userText⟩])

/-- Content of the last assistant-role message of a transcript. -/
def lastAssistantContent (msgs : List Msg) : Option String :=
  ((msgs.filter (fun m => m.role == "assistant")).getLast?).map Msg.content

/- ------------------------------------------------------------------ -/
/- core/utils/secure_python.py : SecurePythonExecutor                  -/
/- ------------------------------------------------------------------ -/

/-- The `SAFE_BUILTINS` allow-list of `SecurePythonExecutor`
(`secure_python.py` lines 23-162), in source order. -/
def SAFE_BUILTINS : List String :=
  ["abs", "all", "any", "ascii", "bin", "bool", "breakpoint", "bytearray",
   "bytes", "callable", "chr", "classmethod", "compile", "complex",
   "delattr", "dict", "dir", "divmod", "enumerate", "filter", "float",
   "format", "frozenset", "getattr", "globals", "hasattr", "hash", "help",
   "hex", "id", "input", "int", "isinstance", "issubclass", "iter", "len",
   "list", "locals", "map", "max", "memoryview", "min", "next", "object",
   "oct", "ord", "pow", "print", "property", "range", "repr", "reversed",
   "round", "set", "setattr", "slice", "sorted", "staticmethod", "str",
   "sum", "super", "tuple", "type", "vars", "zip", "__build_class__",
   "__name__", "None", "True", "False", "Ellipsis", "NotImplemented",
   "Exception", "BaseException", "ArithmeticError", "AssertionError",
   "AttributeError", "BlockingIOError", "BrokenPipeError", "BufferError",
   "BytesWarning", "ChildProcessError", "ConnectionAbortedError",
   "ConnectionError", "ConnectionRefusedError", "ConnectionResetError",
   "DeprecationWarning", "EOFError", "EnvironmentError", "FileExistsError",
   "FileNotFoundError", "FloatingPointError", "FutureWarning",
   "GeneratorExit", "IOError", "ImportError", "ImportWarning",
   "IndentationError", "IndexError", "InterruptedError",
   "IsADirectoryError", "KeyError", "KeyboardInterrupt", "LookupError",
   "MemoryError", "ModuleNotFoundError", "NameError", "NotADirectoryError",
   "NotImplementedError", "OSError", "OverflowError",
   "PendingDeprecationWarning", "PermissionError", "ProcessLookupError",
   "RecursionError", "ReferenceError", "ResourceWarning", "RuntimeError",
   "RuntimeWarning", "StopAsyncIteration", "StopIteration", "SyntaxError",
   "SyntaxWarning", "SystemError", "SystemExit", "TabError",
   "TimeoutError", "TypeError", "UnboundLocalError", "UnicodeDecodeError",
   "UnicodeEncodeError", "UnicodeError", "UnicodeTranslationError",
   "UnicodeWarning", "UserWarning", "ValueError", "Warning",
   "ZeroDivisionError"]

/-- Summary of one node of the parsed Python AST, carrying exactly the
information `_validate_ast` inspects while walking the tree: the node's
type (for the `FORBIDDEN_NODES` check) and, for attribute accesses, the
attribute name.  `other` covers every node type the validator lets
through. -/
inductive PyNode where
  | importStmt
  | importFrom
  | withStmt
  | asyncWith
  | asyncFor
  | functionDef
  | classDef
  | lambdaExpr
  | attrAccess (attr : String)
  | other (typeName : String)
  deriving DecidableEq, Repr

/-- The `FORBIDDEN_NODES` check (`secure_python.py` lines 165-174,
187-190): the `type(node).__name__` reported for a forbidden node type,
`none` otherwise. -/
def forbiddenNodeName : PyNode → Option String
  | PyNode.importStmt => some "Import"
  | PyNode.importFrom => some "ImportFrom"
  | PyNode.withStmt => some "With"
  | PyNode.asyncWith => some "AsyncWith"
  | PyNode.asyncFor => some "AsyncFor"
  | PyNode.functionDef => some "FunctionDef"
  | PyNode.classDef => some "ClassDef"
  | PyNode.lambdaExpr => some "Lambda"
  | _ => none

/-- The deny-list of reflective attributes (`secure_python.py` lines
194-201). -/
def DENY_ATTRS : List String :=
  ["__class__", "__bases__", "__subclasses__", "__globals__", "__code__",
   "__closure__"]

/-- Every `raise SecureExecutionError(...)` site of `secure_python.py`,
one constructor per site. -/
inductive SecureErr where
  | syntaxError (msg : String)
  | forbiddenConstruct (typeName : String)
  | forbiddenAttribute (attr : String)
  | executionTimeout
  | executionFailed
  | runtimeFailure (msg : String)
  deriving DecidableEq, Repr

/-- The exception message carried by each raise site. -/
def errMessage : SecureErr → String
  | SecureErr.syntaxError m => "Syntax error: " ++ m
  | SecureErr.forbiddenConstruct n => "Forbidden construct: " ++ n
  | SecureErr.forbiddenAttribute a => "Forbidden attribute access: " ++ a
  | SecureErr.executionTimeout => "Execution timeout"
  | SecureErr.executionFailed => "Execution failed"
  | SecureErr.runtimeFailure m => m

/-- The spec's `error_kind` classification of the raise sites:
syntax/construct/attribute rejections are validation rejections, the
deadline kill is `timeout`, a worker that died without posting is
`resource_exceeded`, and a posted failure is `runtime_error`. -/
inductive ErrKind where
  | validationRejected
  | timeout
  | resourceExceeded
  | runtimeError
  deriving DecidableEq, Repr

/-- Which `error_kind` each raise site realises. -/
def errKind : SecureErr → ErrKind
  | SecureErr.syntaxError _ => ErrKind.validationRejected
  | SecureErr.forbiddenConstruct _ => ErrKind.validationRejected
  | SecureErr.forbiddenAttribute _ => ErrKind.validationRejected
  | SecureErr.executionTimeout => ErrKind.timeout
  | SecureErr.executionFailed => ErrKind.resourceExceeded
  | SecureErr.runtimeFailure _ => ErrKind.runtimeError

/-- The per-node body of the `ast.walk` loop of `_validate_ast`
(`secure_python.py` lines 187-204): first the `FORBIDDEN_NODES` type
check, then the deny-listed attribute check. -/
def checkNode (n : PyNode) : Except SecureErr Unit :=
  match forbiddenNodeName n with
  | some ty => Except.error (SecureErr.forbiddenConstruct ty)
  | none =>
    match n with
    | PyNode.attrAccess a =>
        if a ∈ DENY_ATTRS then Except.error (SecureErr.forbiddenAttribute a)
        else Except.ok ()
    | _ => Except.ok ()

/-- The `ast.walk` loop: the first offending node (in walk order) raises. -/
def checkNodes : List PyNode → Except SecureErr Unit
  | [] => Except.ok ()
  | n :: rest =>
    match checkNode n with
    | Except.error e => Except.error e
    | Except.ok _ => checkNodes rest

/-- A code input to the executor: the raw text together with the outcome
of `ast.parse` on it (`Except.error m` models `SyntaxError` with message
`m`; `Except.ok nodes` is the walk order of the parsed tree's nodes). -/
structure PyCode where
  raw : String
  parsed : Except String (List PyNode)

/-- `_validate_ast` (`secure_python.py` lines 180-206): re-raise a syntax
error as a `SecureExecutionError`, else walk the tree. -/
def validateAst (c : PyCode) : Except SecureErr Unit :=
  match c.parsed with
  | Except.error m => Except.error (SecureErr.syntaxError m)
  | Except.ok nodes => checkNodes nodes

/-- `SecurePythonExecutor.__init__` state: `timeout` and
`memory_limit = memory_limit_mb * 1024 * 1024`. -/
structure SecExecutor where
  timeout : Nat
  memoryLimit : Nat
  deriving DecidableEq, Repr

/-- `SecurePythonExecutor(timeout, memory_limit_mb)`. -/
def mkSecExecutor (timeout memoryLimitMb : Nat) : SecExecutor :=
  ⟨timeout, memoryLimitMb * 1024 * 1024⟩

/-- The module-level `secure_executor = SecurePythonExecutor(timeout=5,
memory_limit_mb=50)` (`secure_python.py` line 292). -/
def secure_executor : SecExecutor := mkSecExecutor 5 50

/-- The hard-coded file-descriptor bound of `secure_python.py` line 218. -/
def fdLimit : Nat := 32

/-- Observable operations of the executor, parent side and worker side. -/
inductive Ev where
  | setLimit (resName : String) (soft hard : Nat)
  | redirectOutput
  | execCode (code : String)
  | putResult
  | spawnWorker
  | joinWait (deadlineSeconds : Nat)
  | terminateWorker
  deriving DecidableEq, Repr

/-- What the worker posted on the queue, when it posted anything: either
`exec` completed (the worker posts `success=True` with the captured stdout
and the captured stderr text, the latter sent as `None` when empty,
lines 247-253), or an exception was caught inside the worker and it posts
`success=False` with the exception's message (lines 254-260). -/
inductive PostedResult where
  | completed (stdoutText stderrText : String)
  | exnFailure (msg : String)
  deriving DecidableEq, Repr

/-- Oracle for the fate of the worker process, the three cases the parent
distinguishes (`secure_python.py` lines 266-276): still alive at the join
deadline; exited without posting anything (e.g. killed by an OS resource
limit); or posted a `PostedResult`. -/
inductive WorkerOutcome where
  | aliveAtDeadline
  | exitedNoResult
  | posted (r : PostedResult)
  deriving DecidableEq, Repr

/-- The straight-line program of the worker's `target` function
(`secure_python.py` lines 211-253) in program order: install the three
resource limits, redirect stdout/stderr, run `exec`, post the result.
Any actual worker execution performs a prefix of this sequence (it may be
killed part-way through). -/
def targetProgram (ex : SecExecutor) (code : String) : List Ev :=
  [Ev.setLimit "RLIMIT_CPU" ex.timeout ex.timeout,
   Ev.setLimit "RLIMIT_AS" ex.memoryLimit ex.memoryLimit,
   Ev.setLimit "RLIMIT_NOFILE" fdLimit fdLimit,
   Ev.redirectOutput,
   Ev.execCode code,
   Ev.putResult]

/-- The dict a successful `execute` returns: `{"success": True, "output":
..., "error": stderr text or None}`. -/
structure SuccessVal where
  output : String
  errorField : Option String
  deriving DecidableEq, Repr

/-- Result and parent-side event trace of one executor call.  `result` is
`Except.error e` exactly when the Python code raises
`SecureExecutionError` out of the corresponding call. -/
structure ExecOut where
  result : Except SecureErr SuccessVal
  parentEvents : List Ev
  deriving Repr

/-- `_execute_in_subprocess` (`secure_python.py` lines 208-280), parent
side: spawn the worker, `process.join(timeout=self.timeout + 1)`; if still
alive, terminate it and raise "Execution timeout"; if the queue is empty,
raise "Execution failed"; if the posted result has `success=False`, raise
its error message; else return the posted dict. -/
def executeInSubprocess (ex : SecExecutor) (code : String)
    (w : WorkerOutcome) : ExecOut :=
  match code, w with
  | _, WorkerOutcome.aliveAtDeadline =>
      ⟨Except.error SecureErr.executionTimeout,
       [Ev.spawnWorker, Ev.joinWait (ex.timeout + 1), Ev.terminateWorker]⟩
  | _, WorkerOutcome.exitedNoResult =>
      ⟨Except.error SecureErr.executionFailed,
       [Ev.spawnWorker, Ev.joinWait (ex.timeout + 1)]⟩
  | _, WorkerOutcome.posted (PostedResult.exnFailure m) =>
      ⟨Except.error (SecureErr.runtimeFailure m),
       [Ev.spawnWorker, Ev.joinWait (ex.timeout + 1)]⟩
  | _, WorkerOutcome.posted (PostedResult.completed out errTxt) =>
      ⟨Except.ok ⟨out, if errTxt = "" then none else some errTxt⟩,
       [Ev.spawnWorker, Ev.joinWait (ex.timeout + 1)]⟩

/-- `SecurePythonExecutor.execute` (`secure_python.py` lines 282-288):
validate the AST first — a validation failure raises before any process
is spawned — then run in the subprocess. -/
def execute (ex : SecExecutor) (c : PyCode) (w : WorkerOutcome) : ExecOut :=
  match validateAst c with
  | Except.error e => ⟨Except.error e, []⟩
  | Except.ok _ => executeInSubprocess ex c.raw w

/-- The dict `SecureBrain.execute_python` returns (`brain_secure.py`
lines 174-188). -/
structure PyExecDict where
  success : Bool
  output : String
  error : Option String
  deriving DecidableEq, Repr

/-- `SecureBrain.execute_python` (`brain_secure.py` lines 174-188): call
`secure_executor.execute` inside a `try`; on a normal return report
`success=True` with the dict's output and error fields, on any exception
report `success=False` with empty output and the exception's message. -/
def executePython (ex : SecExecutor) (c : PyCode) (w : WorkerOutcome) : PyExecDict :=
  match (execute ex c w).result with
  | Except.ok v => ⟨true, v.output, v.errorField⟩
  | Except.error e => ⟨false, "", some (errMessage e)⟩

/- ------------------------------------------------------------------ -/
/- Concrete fixtures used by witnesses and counterexamples             -/
/- ------------------------------------------------------------------ -/

/-- A configuration with both skills disabled and trivial tool oracles. -/
def cfg0 : Cfg := ⟨false, false, fun _ => "", fun _ => ReplExec.completes ""⟩

/-- A model that requests the `python_repl` tool on every round. -/
def resp0 : Nat → Except String String :=
  fun _ => Except.ok "Action: python_repl\nInput: print(1)"

/-- A model that answers with the empty string (no markers) at once. -/
def respEmptyOk : Nat → Except String String := fun _ => Except.ok ""

/-- A code input whose tree contains a lambda expression. -/
def lamCode : PyCode :=
  ⟨"f = lambda x: x", Except.ok [PyNode.other "Module", PyNode.lambdaExpr]⟩

/-- A code input whose tree contains a module import statement. -/
def importCode : PyCode :=
  ⟨"os = 0", Except.ok [PyNode.other "Module", PyNode.importStmt]⟩

/-- A benign code input that passes validation. -/
def okCode : PyCode :=
  ⟨"print(1)", Except.ok [PyNode.other "Module", PyNode.other "Expr",
    PyNode.other "Call", PyNode.other "Name", PyNode.other "Constant"]⟩

/-- A benign validated input on which `exec` completes while the worker's
redirected stderr buffer is non-empty (CPython reaches this e.g. when the
compiled code emits a SyntaxWarning such as an assertion on a tuple). -/
def warnCode : PyCode :=
  ⟨"assert (True, 1)", Except.ok [PyNode.other "Module", PyNode.other "Assert",
    PyNode.other "Tuple", PyNode.other "Constant", PyNode.other "Constant"]⟩

/-- The message list after a round whose action was denied: the assistant
response followed by the policy-denial observation. -/
def obsMsgs (msgs : List Msg) (r : String) : List Msg :=
  (msgs ++ [⟨"assistant", r⟩]) ++ [⟨"user", "Observation: " ++ toolDisabledMsg⟩]

/-- The constructs claim C3 enumerates: import statement, `with`/async
`with`, function or class definition, lambda, or an access to a
deny-listed reflective attribute. -/
def claimForbidden (n : PyNode) : Prop :=
  n = PyNode.importStmt ∨ n = PyNode.importFrom ∨ n = PyNode.withStmt ∨
  n = PyNode.asyncWith ∨ n = PyNode.functionDef ∨ n = PyNode.classDef ∨
  n = PyNode.lambdaExpr ∨ ∃ a ∈ DENY_ATTRS, n = PyNode.attrAccess a

/-- Membership of an `Except.ok` response that carries both markers. -/
def okMarkers (x : Except String String) : Prop :=
  ∃ r, x = Except.ok r ∧ hasMarkers r = true

/- ------------------------------------------------------------------ -/
/- Helper lemmas                                                       -/
/- ------------------------------------------------------------------ -/

theorem parse_no_markers {r : String} (h : hasMarkers r = false) :
    parseResponse r = ParseResult.terminal r := by
  simp [parseResponse, h]

theorem checkNode_error_of_claimForbidden {n : PyNode} (h : claimForbidden n) :
    ∃ e, checkNode n = Except.error e := by
  rcases h with h | h | h | h | h | h | h | ⟨a, ha, h⟩ <;> subst h
  · exact ⟨_, rfl⟩
  · exact ⟨_, rfl⟩
  · exact ⟨_, rfl⟩
  · exact ⟨_, rfl⟩
  · exact ⟨_, rfl⟩
  · exact ⟨_, rfl⟩
  · exact ⟨_, rfl⟩
  · refine ⟨SecureErr.forbiddenAttribute a, ?_⟩
    simp [checkNode, forbiddenNodeName, ha]

theorem checkNode_error_validation {n : PyNode} {e : SecureErr}
    (h : checkNode n = Except.error e) : errKind e = ErrKind.validationRejected := by
  cases n <;> simp [checkNode, forbiddenNodeName] at h
  case attrAccess a =>
    by_cases ha : a ∈ DENY_ATTRS
    · simp [ha] at h; subst h; rfl
    · simp [ha] at h
  all_goals (subst h; rfl)

theorem checkNodes_error_of_mem {ns : List PyNode} {n : PyNode}
    (hn : n ∈ ns) (h : ∃ e, checkNode n = Except.error e) :
    ∃ e, checkNodes ns = Except.error e := by
  induction ns with
  | nil => cases hn
  | cons m rest ih =>
    rcases hcm : checkNode m with e | u
    · exact ⟨e, by simp [checkNodes, hcm]⟩
    · rcases List.mem_cons.mp hn with hEq | hMem
      · subst hEq; rcases h with ⟨e, he⟩; rw [hcm] at he; cases he
      · rcases ih hMem with ⟨e, he⟩
        exact ⟨e, by simp [checkNodes, hcm, he]⟩

theorem checkNodes_error_validation {ns : List PyNode} {e : SecureErr}
    (h : checkNodes ns = Except.error e) : errKind e = ErrKind.validationRejected := by
  induction ns with
  | nil => simp [checkNodes] at h
  | cons m rest ih =>
    rcases hcm : checkNode m with e' | u
    · simp [checkNodes, hcm] at h; subst h; exact checkNode_error_validation hcm
    · simp [checkNodes, hcm] at h; exact ih h

theorem obs_ne_empty (s : String) : "Observation: " ++ s ≠ "" := by
  intro h
  have hlen : "Observation: ".length = 0 ∧ s.length = 0 := by
    simpa [String.length_append] using congrArg String.length h
  exact absurd hlen.1 (by decide)

theorem dispatchTool_denied {cfg : Cfg} {name input : String}
    (h1 : ¬(name = "web_search" ∧ cfg.webOn = true))
    (h2 : ¬(name = "python_repl" ∧ cfg.pyOn = true)) :
    dispatchTool cfg name input = (toolDisabledMsg, []) := by
  simp [dispatchTool, h1, h2]

theorem parse_action_of_markers {r : String} (hm : hasMarkers r = true) :
    ∃ a b, parseResponse r = ParseResult.action a b :=
  ⟨pyStrip ((pySplit ((pySplit r "Action:").getD 1 "") "Input:").getD 0 ""),
   pyStrip ((pySplit r "Input:").getD 1 ""),
   by simp [parseResponse, hm]⟩

theorem runLoop_calls_le (cfg : Cfg) (resp : Nat → Except String String) :
    ∀ fuel i msgs, (runLoop cfg resp fuel i msgs).calls ≤ fuel := by
  intro fuel
  induction fuel with
  | zero => intro i msgs; simp [runLoop]
  | succ f ih =>
    intro i msgs
    rcases hr : resp i with e | r
    · simp [runLoop, hr]
    · rcases hp : parseResponse r with t | ⟨name, input⟩
      · simp [runLoop, hr, hp]
      · simp only [runLoop, hr, hp]
        have := ih (i + 1)
          ((msgs ++ [⟨"assistant", r⟩]) ++
            [⟨"user", "Observation: " ++ (dispatchTool cfg name input).1⟩])
        omega

theorem runLoop_queried_head (cfg : Cfg) (resp : Nat → Except String String)
    {fuel : Nat} (i : Nat) (msgs : List Msg) (h : 0 < fuel) :
    (runLoop cfg resp fuel i msgs).queried.getD 0 [] = msgs := by
  rcases fuel with _ | f
  · omega
  · rcases hr : resp i with e | r
    · simp [runLoop, hr]
    · rcases hp : parseResponse r with t | ⟨name, input⟩
      · simp [runLoop, hr, hp]
      · simp [runLoop, hr, hp]

theorem runLoop_obs (cfg : Cfg) (resp : Nat → Except String String) :
    ∀ fuel i msgs, 0 < fuel → (∀ j, j < fuel → okMarkers (resp (i + j))) →
      ∃ s, (runLoop cfg resp fuel i msgs).answer = "Observation: " ++ s := by
  intro fuel
  induction fuel with
  | zero => intro i msgs h; omega
  | succ f ih =>
    intro i msgs _ h
    rcases h 0 (by omega) with ⟨r, hr, hm⟩
    rw [Nat.add_zero] at hr
    rcases parse_action_of_markers hm with ⟨a, b, hp⟩
    rcases f with _ | fp
    · refine ⟨(dispatchTool cfg a b).1, ?_⟩
      simp [runLoop, hr, hp, lastContentOr]
    · rcases ih (i + 1)
        ((msgs ++ [⟨"assistant", r⟩]) ++
          [⟨"user", "Observation: " ++ (dispatchTool cfg a b).1⟩])
        (by omega)
        (by
          intro j hj
          have hx := h (j + 1) (by omega)
          rwa [show i + (j + 1) = i + 1 + j by omega] at hx)
        with ⟨s, hs⟩
      refine ⟨s, ?_⟩
      simp only [runLoop, hr, hp]
      exact hs

/- ------------------------------------------------------------------ -/
/- Claim theorems                                                      -/
/- ------------------------------------------------------------------ -/

/-- C1: the claim states the globals namespace handed to the
script-execution tool contains only safe operations and in particular no
filesystem primitive, no import primitive and no getattr/globals/vars-style
introspection.  The code contradicts this: the `safe_builtins` namespace
that `python_repl` (the tool `process_query` invokes) hands to `exec`
contains `open`, `__import__`, `getattr` and `hasattr`, and even the
hardened executor's `SAFE_BUILTINS` allow-list contains `getattr`,
`globals`, `vars`, `setattr` and `delattr`. -/
theorem python_repl_namespace_has_forbidden_primitives :
    ("open" ∈ pythonReplSafeBuiltins ∧ "__import__" ∈ pythonReplSafeBuiltins ∧
      "getattr" ∈ pythonReplSafeBuiltins ∧ "hasattr" ∈ pythonReplSafeBuiltins) ∧
    ("getattr" ∈ SAFE_BUILTINS ∧ "globals" ∈ SAFE_BUILTINS ∧
      "vars" ∈ SAFE_BUILTINS ∧ "setattr" ∈ SAFE_BUILTINS ∧
      "delattr" ∈ SAFE_BUILTINS) := by
  decide

/-- C6: the action parser yields `Action("search", "weather today")` on
`"Action: search\nInput: weather today"`, and whenever either marker is
absent from the response, the whole response is the terminal answer,
unchanged. -/
theorem parse_example_and_missing_marker_terminal :
    parseResponse "Action: search\nInput: weather today" =
      ParseResult.action "search" "weather today" ∧
    ∀ r : String, (pyIn "Action:" r = false ∨ pyIn "Input:" r = false) →
      parseResponse r = ParseResult.terminal r := by
  constructor
  · decide
  · intro r h
    apply parse_no_markers
    unfold hasMarkers
    rcases h with h | h <;> simp [h]

/-- Witness for C6 at the concrete marker-free response `"hello"`. -/
theorem parse_example_and_missing_marker_terminal_witness :
    pyIn "Action:" "hello" = false ∧
    parseResponse "hello" = ParseResult.terminal "hello" :=
  ⟨by decide,
   parse_example_and_missing_marker_terminal.2 "hello" (Or.inl (by decide))⟩

/-- C10: the `timeout` parameter of `python_repl` is never read — for any
code, any two timeout values and the same `exec` behaviour, the result is
identical; no time limit of any kind exists on this in-process path. -/
theorem python_repl_timeout_unused (code : String) (t1 t2 : Nat)
    (beh : ReplExec) : python_repl code t1 beh = python_repl code t2 beh := by
  cases beh <;> rfl

/-- Counterexample to C4 as stated: `SecurePythonExecutor.execute` does
raise past its boundary (modelled as `Except.error`, the raising of
`SecureExecutionError`) — at the concrete input `lamCode` it raises the
forbidden-construct error rather than returning a result value. -/
theorem execute_raises_on_lambda :
    (execute secure_executor lamCode WorkerOutcome.aliveAtDeadline).result =
      Except.error (SecureErr.forbiddenConstruct "Lambda") := rfl

/-- C4 amended: the layer that never raises is `SecureBrain.execute_python`
— it is total, and every failure that `execute` raises is encoded in the
returned value as `success=False` with the exception's message, while a
normal return is encoded as `success=True` with the posted output. -/
theorem execute_python_total_encodes_failures (ex : SecExecutor) (c : PyCode)
    (w : WorkerOutcome) :
    (∀ e, (execute ex c w).result = Except.error e →
      executePython ex c w = ⟨false, "", some (errMessage e)⟩) ∧
    (∀ v, (execute ex c w).result = Except.ok v →
      executePython ex c w = ⟨true, v.output, v.errorField⟩) := by
  constructor
  · intro e he; simp [executePython, he]
  · intro v hv; simp [executePython, hv]

/-- Witness for C4's amended theorem at the raising input `lamCode`. -/
theorem execute_python_total_encodes_failures_witness :
    executePython secure_executor lamCode WorkerOutcome.aliveAtDeadline =
      ⟨false, "", some "Forbidden construct: Lambda"⟩ :=
  (execute_python_total_encodes_failures secure_executor lamCode
      WorkerOutcome.aliveAtDeadline).1
    (SecureErr.forbiddenConstruct "Lambda") rfl

/-- Counterexample to C9 as stated: a successful result can carry an error
payload — when `exec` completes but the worker's redirected stderr buffer
is non-empty (`warnCode` with a SyntaxWarning on stderr), the returned
result has `success=True` and a non-null `error` field holding the stderr
text (`secure_python.py` line 251). -/
theorem success_result_with_error_payload :
    (executePython secure_executor warnCode
        (WorkerOutcome.posted (PostedResult.completed "" "warn"))).success = true ∧
    (executePython secure_executor warnCode
        (WorkerOutcome.posted (PostedResult.completed "" "warn"))).error =
      some "warn" :=
  ⟨rfl, rfl⟩

/-- C9 amended: `success=True` does imply that no failure classification
was raised — the result came from a normal `Except.ok` return of `execute`
— but the `error` field of a successful result is the worker's captured
stderr text (`None` only when that buffer was empty), so a successful
result may still carry an error payload. -/
theorem success_implies_no_failure_classification (ex : SecExecutor)
    (c : PyCode) (w : WorkerOutcome)
    (h : (executePython ex c w).success = true) :
    ∃ v, (execute ex c w).result = Except.ok v ∧
      (∀ e : SecureErr, (execute ex c w).result ≠ Except.error e) ∧
      (executePython ex c w).error = v.errorField := by
  rcases hr : (execute ex c w).result with e | v
  · simp [executePython, hr] at h
  · exact ⟨v, rfl, by simp [hr], by simp [executePython, hr]⟩

/-- Witness for C9's amended theorem at a successful concrete run. -/
theorem success_implies_no_failure_classification_witness :
    (executePython secure_executor okCode
        (WorkerOutcome.posted (PostedResult.completed "1\n" ""))).success = true ∧
    ∃ v, (execute secure_executor okCode
        (WorkerOutcome.posted (PostedResult.completed "1\n" ""))).result =
      Except.ok v :=
  ⟨rfl,
   match success_implies_no_failure_classification secure_executor okCode
       (WorkerOutcome.posted (PostedResult.completed "1\n" "")) rfl with
   | ⟨v, hv, _, _⟩ => ⟨v, hv⟩⟩

/-- C2: for every code input that passes validation, the executor spawns a
new worker process (the parent trace contains the spawn), user code is
never executed in the calling process (the parent trace contains no exec
event), and in the worker's program every executed prefix that reaches the
exec of user code has already installed all three hard resource limits —
CPU time at `timeout`, address space at `memory_limit`, file descriptors
at 32. -/
theorem execute_spawns_and_limits_before_exec (ex : SecExecutor) (c : PyCode)
    (w : WorkerOutcome) (hv : validateAst c = Except.ok ()) :
    Ev.spawnWorker ∈ (execute ex c w).parentEvents ∧
    (∀ s : String, Ev.execCode s ∉ (execute ex c w).parentEvents) ∧
    (∀ n : Nat, Ev.execCode c.raw ∈ (targetProgram ex c.raw).take n →
      Ev.setLimit "RLIMIT_CPU" ex.timeout ex.timeout ∈
        (targetProgram ex c.raw).take n ∧
      Ev.setLimit "RLIMIT_AS" ex.memoryLimit ex.memoryLimit ∈
        (targetProgram ex c.raw).take n ∧
      Ev.setLimit "RLIMIT_NOFILE" fdLimit fdLimit ∈
        (targetProgram ex c.raw).take n) := by
  have hex : execute ex c w = executeInSubprocess ex c.raw w := by
    simp [execute, hv]
  refine ⟨?_, ?_, ?_⟩
  · rw [hex]
    rcases w with _ | _ | r
    · simp [executeInSubprocess]
    · simp [executeInSubprocess]
    · rcases r with ⟨out, errTxt⟩ | m <;> simp [executeInSubprocess]
  · intro s
    rw [hex]
    rcases w with _ | _ | r
    · simp [executeInSubprocess]
    · simp [executeInSubprocess]
    · rcases r with ⟨out, errTxt⟩ | m <;> simp [executeInSubprocess]
  · intro n hmem
    rcases n with _ | _ | _ | _ | _ | n <;>
      simp [targetProgram, List.take] at hmem ⊢

/-- Witness for C2 at a validated concrete input and a posting worker. -/
theorem execute_spawns_and_limits_before_exec_witness :
    validateAst okCode = Except.ok () ∧
    Ev.execCode okCode.raw ∈ (targetProgram secure_executor okCode.raw).take 5 ∧
    Ev.setLimit "RLIMIT_CPU" secure_executor.timeout secure_executor.timeout ∈
      (targetProgram secure_executor okCode.raw).take 5 ∧
    Ev.spawnWorker ∈ (execute secure_executor okCode
      (WorkerOutcome.posted (PostedResult.completed "1\n" ""))).parentEvents := by
  have h := execute_spawns_and_limits_before_exec secure_executor okCode
    (WorkerOutcome.posted (PostedResult.completed "1\n" "")) rfl
  exact ⟨rfl, by decide, (h.2.2 5 (by decide)).1, h.1⟩

/-- C3: for every code input whose tree contains one of the forbidden
constructs the claim enumerates, `execute`'s outcome is a failure
classified `validation_rejected` (surfaced by `execute_python` as a
`success=False` result carrying the rejection message) and no worker
process is ever spawned. -/
theorem execute_rejects_forbidden_before_spawn (ex : SecExecutor) (c : PyCode)
    (w : WorkerOutcome) (nodes : List PyNode) (hp : c.parsed = Except.ok nodes)
    (n : PyNode) (hn : n ∈ nodes) (hf : claimForbidden n) :
    ∃ e, (execute ex c w).result = Except.error e ∧
      errKind e = ErrKind.validationRejected ∧
      executePython ex c w = ⟨false, "", some (errMessage e)⟩ ∧
      (execute ex c w).parentEvents = [] ∧
      Ev.spawnWorker ∉ (execute ex c w).parentEvents := by
  rcases checkNodes_error_of_mem hn (checkNode_error_of_claimForbidden hf)
    with ⟨e, he⟩
  have hval : validateAst c = Except.error e := by simp [validateAst, hp, he]
  refine ⟨e, ?_, checkNodes_error_validation he, ?_, ?_, ?_⟩
  · simp [execute, hval]
  · simp [executePython, execute, hval]
  · simp [execute, hval]
  · simp [execute, hval]

/-- Witness for C3 at a concrete input containing an import statement. -/
theorem execute_rejects_forbidden_before_spawn_witness :
    ∃ e, (execute secure_executor importCode
        WorkerOutcome.aliveAtDeadline).result = Except.error e ∧
      errKind e = ErrKind.validationRejected ∧
      (execute secure_executor importCode
        WorkerOutcome.aliveAtDeadline).parentEvents = [] := by
  rcases execute_rejects_forbidden_before_spawn secure_executor importCode
      WorkerOutcome.aliveAtDeadline _ rfl PyNode.importStmt (by decide)
      (Or.inl rfl) with ⟨e, h1, h2, _, h4, _⟩
  exact ⟨e, h1, h2, h4⟩

/-- C5: on every validated input the parent waits on the worker with the
wall-clock deadline `timeout + 1`; a worker still alive at the deadline is
forcibly terminated and the outcome is classified `timeout`; a worker that
exited without posting a result yields the outcome classified
`resource_exceeded`. -/
theorem parent_deadline_and_kill_classification (ex : SecExecutor)
    (c : PyCode) (w : WorkerOutcome) (hv : validateAst c = Except.ok ()) :
    Ev.joinWait (ex.timeout + 1) ∈ (execute ex c w).parentEvents ∧
    (w = WorkerOutcome.aliveAtDeadline →
      (execute ex c w).result = Except.error SecureErr.executionTimeout ∧
      errKind SecureErr.executionTimeout = ErrKind.timeout ∧
      Ev.terminateWorker ∈ (execute ex c w).parentEvents) ∧
    (w = WorkerOutcome.exitedNoResult →
      (execute ex c w).result = Except.error SecureErr.executionFailed ∧
      errKind SecureErr.executionFailed = ErrKind.resourceExceeded) := by
  have hex : execute ex c w = executeInSubprocess ex c.raw w := by
    simp [execute, hv]
  refine ⟨?_, ?_, ?_⟩
  · rw [hex]
    rcases w with _ | _ | r
    · simp [executeInSubprocess]
    · simp [executeInSubprocess]
    · rcases r with ⟨out, errTxt⟩ | m <;> simp [executeInSubprocess]
  · intro hw
    subst hw
    rw [hex]
    exact ⟨rfl, rfl, by simp [executeInSubprocess]⟩
  · intro hw
    subst hw
    rw [hex]
    exact ⟨rfl, rfl⟩

/-- Witness for C5 at a validated input whose worker overruns the
deadline. -/
theorem parent_deadline_and_kill_classification_witness :
    (execute secure_executor okCode WorkerOutcome.aliveAtDeadline).result =
      Except.error SecureErr.executionTimeout ∧
    Ev.terminateWorker ∈ (execute secure_executor okCode
      WorkerOutcome.aliveAtDeadline).parentEvents ∧
    Ev.joinWait 6 ∈ (execute secure_executor okCode
      WorkerOutcome.aliveAtDeadline).parentEvents := by
  have h := parent_deadline_and_kill_classification secure_executor okCode
    WorkerOutcome.aliveAtDeadline rfl
  have h2 := h.2.1 rfl
  exact ⟨h2.1, h2.2.2, h.1⟩

/-- Counterexample to C7 as stated: when the iteration bound is exhausted
(a model that requests a disabled tool on every round), `process_query`
returns the content of the last message — the final observation — which
differs from the last assistant message; and a model whose marker-free
response is the empty string yields an empty returned text. -/
theorem exhausted_loop_returns_observation_not_assistant :
    (processQuery cfg0 resp0 "sys" [] "hi").answer =
      "Observation: " ++ toolDisabledMsg ∧
    lastAssistantContent (processQuery cfg0 resp0 "sys" [] "hi").msgsFinal =
      some "Action: python_repl\nInput: print(1)" ∧
    "Observation: " ++ toolDisabledMsg ≠ "Action: python_repl\nInput: print(1)" ∧
    (processQuery cfg0 respEmptyOk "sys" [] "hi").answer = "" :=
  ⟨by decide, by decide, by decide, by decide⟩

/-- C7 amended: for every model-response sequence the loop makes at most
`max_iterations = 10` model calls, and when the bound is exhausted — every
one of the first 10 responses carries both action markers — the returned
final answer is the content of the last message, the final observation
(prefixed `"Observation: "`), and so is non-empty. -/
theorem loop_reaches_bound_and_returns_observation (cfg : Cfg)
    (resp : Nat → Except String String) (sys : String) (hist : List Msg)
    (user : String) :
    (processQuery cfg resp sys hist user).calls ≤ 10 ∧
    ((∀ j, j < 10 → okMarkers (resp j)) →
      ∃ s, (processQuery cfg resp sys hist user).answer = "Observation: " ++ s ∧
        (processQuery cfg resp sys hist user).answer ≠ "") := by
  constructor
  · exact runLoop_calls_le cfg resp 10 0 _
  · intro h
    rcases runLoop_obs cfg resp 10 0
        (⟨"system", sys⟩ :: hist ++ [⟨"user", user⟩]) (by omega)
        (by intro j hj; simpa using h j hj) with ⟨s, hs⟩
    exact ⟨s, hs, by rw [show (processQuery cfg resp sys hist user).answer =
      "Observation: " ++ s from hs]; exact obs_ne_empty s⟩

/-- Witness for C7's amended theorem with an always-acting model. -/
theorem loop_reaches_bound_and_returns_observation_witness :
    (processQuery cfg0 resp0 "s" [] "u").calls ≤ 10 ∧
    ∃ s, (processQuery cfg0 resp0 "s" [] "u").answer = "Observation: " ++ s ∧
      (processQuery cfg0 resp0 "s" [] "u").answer ≠ "" := by
  have h := loop_reaches_bound_and_returns_observation cfg0 resp0 "s" [] "u"
  exact ⟨h.1, h.2 (by
    intro j hj
    exact ⟨"Action: python_repl\nInput: print(1)", rfl, by decide⟩)⟩

/-- C8: when the parsed action names a disabled (or unregistered) tool, the
loop executes no tool; it appends the assistant response and then the fixed
policy-denial string as an ordinary observation message, and the next model
round is queried with exactly that extended message sequence (so the
observation is present in it). -/
theorem disabled_tool_appends_denial_observation (cfg : Cfg)
    (resp : Nat → Except String String) (fuel i : Nat) (msgs : List Msg)
    (r name input : String)
    (hr : resp i = Except.ok r)
    (hp : parseResponse r = ParseResult.action name input)
    (h1 : ¬(name = "web_search" ∧ cfg.webOn = true))
    (h2 : ¬(name = "python_repl" ∧ cfg.pyOn = true)) :
    runLoop cfg resp (fuel + 1) i msgs =
      { answer := (runLoop cfg resp fuel (i + 1) (obsMsgs msgs r)).answer,
        calls := (runLoop cfg resp fuel (i + 1) (obsMsgs msgs r)).calls + 1,
        queried := msgs :: (runLoop cfg resp fuel (i + 1) (obsMsgs msgs r)).queried,
        tools := (runLoop cfg resp fuel (i + 1) (obsMsgs msgs r)).tools,
        msgsFinal := (runLoop cfg resp fuel (i + 1) (obsMsgs msgs r)).msgsFinal } ∧
    (obsMsgs msgs r).getLast? =
      some ⟨"user", "Observation: " ++ toolDisabledMsg⟩ ∧
    (0 < fuel →
      (runLoop cfg resp (fuel + 1) i msgs).queried.getD 1 [] = obsMsgs msgs r) := by
  have hd : dispatchTool cfg name input = (toolDisabledMsg, []) :=
    dispatchTool_denied h1 h2
  have hmain : runLoop cfg resp (fuel + 1) i msgs =
      { answer := (runLoop cfg resp fuel (i + 1) (obsMsgs msgs r)).answer,
        calls := (runLoop cfg resp fuel (i + 1) (obsMsgs msgs r)).calls + 1,
        queried := msgs :: (runLoop cfg resp fuel (i + 1) (obsMsgs msgs r)).queried,
        tools := (runLoop cfg resp fuel (i + 1) (obsMsgs msgs r)).tools,
        msgsFinal := (runLoop cfg resp fuel (i + 1) (obsMsgs msgs r)).msgsFinal } := by
    simp [runLoop, hr, hp, hd, obsMsgs]
  refine ⟨hmain, by simp [obsMsgs], ?_⟩
  intro hf
  rw [hmain]
  simpa using runLoop_queried_head cfg resp (i + 1) (obsMsgs msgs r) hf

/-- Witness for C8 at a concrete round with the `python_repl` skill
disabled. -/
theorem disabled_tool_appends_denial_observation_witness :
    (obsMsgs [⟨"system", "s"⟩] "Action: python_repl\nInput: print(1)").getLast? =
      some ⟨"user", "Observation: " ++ toolDisabledMsg⟩ ∧
    (runLoop cfg0 resp0 2 0 [⟨"system", "s"⟩]).queried.getD 1 [] =
      obsMsgs [⟨"system", "s"⟩] "Action: python_repl\nInput: print(1)" := by
  have h := disabled_tool_appends_denial_observation cfg0 resp0 1 0
    [⟨"system", "s"⟩] "Action: python_repl\nInput: print(1)" "python_repl"
    "print(1)" rfl (by decide) (by decide) (by decide)
  exact ⟨h.2.1, h.2.2 (by omega)⟩
